import Mathlib

/-!
A verification model of the reconciliation core of an OCI infrastructure
plugin: the provider-error classifier and error-to-result builders
(pkg/util/errors.go), the read-after-write decorator
(pkg/provisioner/readafterwrite.go), the container-engine work-request
poller (pkg/provisioner/containerengine/work_request_helpers.go), the
read-before-delete logic of the core provisioners
(pkg/provisioner/core/vcn.go and the SecurityList provisioner), and the
patch applier (pkg/util/patch.go).  Each definition is a direct
translation of the corresponding Go function; provider calls are
modelled as explicitly supplied call outcomes (`Except`-valued oracles).
-/

/-- Operation enum of the plugin SDK (resource.Operation). -/
inductive Operation where
  | Create
  | Update
  | Delete
  | CheckStatus
deriving DecidableEq

/-- Tri-state operation status (resource.OperationStatus). -/
inductive OperationStatus where
  | Success
  | Failure
  | InProgress
deriving DecidableEq

/-- Closed error taxonomy (resource.OperationErrorCode).  In Go this is a
string-valued type whose zero value "" means "not set"; `NotSet` models
that zero value. -/
inductive OperationErrorCode where
  | NotSet
  | NotFound
  | ResourceConflict
  | Throttling
  | ServiceInternalError
  | ServiceTimeout
deriving DecidableEq

/-- JSON values; property bags (map[string]any after json.Unmarshal) are
modelled as `obj` with an association list of fields. -/
inductive Json where
  | null
  | bool (b : Bool)
  | num (n : Int)
  | str (s : String)
  | arr (items : List Json)
  | obj (fields : List (String × Json))

mutual

/-- Structural equality on JSON values (deep equality as used by the
patch library's `test` operation). -/
def Json.beq : Json → Json → Bool
  | .null, .null => true
  | .bool a, .bool b => a == b
  | .num a, .num b => a == b
  | .str a, .str b => a == b
  | .arr a, .arr b => Json.beqList a b
  | .obj a, .obj b => Json.beqFields a b
  | _, _ => false

/-- Pointwise `Json.beq` on lists of values. -/
def Json.beqList : List Json → List Json → Bool
  | [], [] => true
  | x :: xs, y :: ys => Json.beq x y && Json.beqList xs ys
  | _, _ => false

/-- Pointwise `Json.beq` on lists of object fields. -/
def Json.beqFields : List (String × Json) → List (String × Json) → Bool
  | [], [] => true
  | (k1, v1) :: xs, (k2, v2) :: ys => k1 == k2 && Json.beq v1 v2 && Json.beqFields xs ys
  | _, _ => false

end

/-- resource.ProgressResult: the shared payload of every operation result.
Go zero values are the field defaults. -/
structure ProgressResult where
  operation : Operation
  operationStatus : OperationStatus
  nativeID : String := ""
  requestID : String := ""
  errorCode : OperationErrorCode := .NotSet
  statusMessage : String := ""
  resourceProperties : Json := .null

/-- resource.CreateResult. -/
structure CreateResult where
  progressResult : ProgressResult

/-- resource.UpdateResult. -/
structure UpdateResult where
  progressResult : ProgressResult

/-- resource.DeleteResult. -/
structure DeleteResult where
  progressResult : ProgressResult

/-- resource.StatusResult. -/
structure StatusResult where
  progressResult : ProgressResult

/-- resource.ReadResult.  `Properties` is a serialized JSON document in Go;
it is modelled here as the parsed JSON value, and `ErrorCode`'s zero value
"" is `OperationErrorCode.NotSet`. -/
structure ReadResult where
  resourceType : String := ""
  errorCode : OperationErrorCode := .NotSet
  properties : Json := .null

/-- resource.ListResult. -/
structure ListResult where
  nativeIDs : List String := []

/-- An OCI common.ServiceError: transport status code, symbolic provider
code, and provider message. -/
structure ServiceError where
  httpStatusCode : Int
  code : String
  message : String
deriving DecidableEq

/-- A Go error value.  `service` is a provider service error (a value for
which common.IsServiceError succeeds); `wrap` is an error produced by
fmt.Errorf with %w (IsServiceError fails on it, errors.Unwrap exposes the
cause); `plain` is any other error (no cause).  Provider service errors do
not implement Unwrap, so they are leaves. -/
inductive GoError where
  | service (se : ServiceError)
  | wrap (msg : String) (cause : GoError)
  | plain (msg : String)
deriving DecidableEq

/-- common.IsServiceError: succeeds exactly on service errors. -/
def IsServiceError : GoError → Option ServiceError
  | .service se => some se
  | _ => none

/-- errors.Unwrap: exposes the cause of a wrapped error, nil otherwise. -/
def Unwrap : GoError → Option GoError
  | .wrap _ cause => some cause
  | _ => none

/-- err.Error(): the error's own message. -/
def errString : GoError → String
  | .service se => se.message
  | .wrap msg _ => msg
  | .plain msg => msg

/-- The unwrap loop of HandleOCIServiceError (errors.go lines 24-34): walk
the cause chain until common.IsServiceError succeeds or the chain ends. -/
def findServiceError : GoError → Option ServiceError
  | .service se => some se
  | .wrap _ cause => findServiceError cause
  | .plain _ => none

/-- The classification switch of HandleOCIServiceError (errors.go lines
40-69): HTTP status code first, then the symbolic OCI error code. -/
def classifyServiceError (se : ServiceError) : OperationErrorCode × Bool :=
  if se.httpStatusCode = 404 then (.NotFound, true)
  else if se.httpStatusCode = 409 then (.ResourceConflict, true)
  else if se.httpStatusCode = 429 then (.Throttling, true)
  else if se.httpStatusCode = 500 ∨ se.httpStatusCode = 502 ∨ se.httpStatusCode = 503 then
    (.ServiceInternalError, true)
  else if se.httpStatusCode = 504 then (.ServiceTimeout, true)
  else if se.code = "NotAuthorizedOrNotFound" then (.NotFound, true)
  else if se.code = "TooManyRequests" then (.Throttling, true)
  else (.NotSet, false)

/-- util.HandleOCIServiceError (errors.go lines 18-70), on acyclic error
values: nil check, unwrap loop, classification switch. -/
def HandleOCIServiceError (err : Option GoError) : OperationErrorCode × Bool :=
  match err with
  | none => (.NotSet, false)
  | some e =>
    match findServiceError e with
    | none => (.NotSet, false)
    | some se => classifyServiceError se

/-- errors.Unwrap iterated n times. -/
def unwrapN : Nat → GoError → Option GoError
  | 0, e => some e
  | n + 1, e =>
    match Unwrap e with
    | none => none
    | some cause => unwrapN n cause

/-- The status message built by the three result builders: the provider
message under the operation-specific prefix when a service error was
found in the chain, err.Error() otherwise. -/
def builderMessage (e : GoError) (operationName verb : String) : String :=
  match findServiceError e with
  | some se => operationName ++ " cannot be " ++ verb ++ ": " ++ se.message
  | none => errString e

/-- util.HandleCreateError (errors.go lines 113-145). -/
def HandleCreateError (err : Option GoError) (resourceType operationName : String) :
    Option CreateResult × Option GoError :=
  match err with
  | none => (none, none)
  | some e =>
    match HandleOCIServiceError (some e) with
    | (errorCode, true) =>
      (some ⟨{ operation := .Create, operationStatus := .Failure, errorCode := errorCode,
               statusMessage := builderMessage e operationName "created" }⟩, none)
    | (_, false) => (none, some e)

/-- util.HandleUpdateError (errors.go lines 150-183). -/
def HandleUpdateError (err : Option GoError) (resourceType nativeID operationName : String) :
    Option UpdateResult × Option GoError :=
  match err with
  | none => (none, none)
  | some e =>
    match HandleOCIServiceError (some e) with
    | (errorCode, true) =>
      (some ⟨{ operation := .Update, operationStatus := .Failure, errorCode := errorCode,
               statusMessage := builderMessage e operationName "updated",
               nativeID := nativeID }⟩, none)
    | (_, false) => (none, some e)

/-- util.HandleDeleteError (errors.go lines 75-108). -/
def HandleDeleteError (err : Option GoError) (resourceType nativeID operationName : String) :
    Option DeleteResult × Option GoError :=
  match err with
  | none => (none, none)
  | some e =>
    match HandleOCIServiceError (some e) with
    | (errorCode, true) =>
      (some ⟨{ operation := .Delete, operationStatus := .Failure, errorCode := errorCode,
               statusMessage := builderMessage e operationName "deleted",
               nativeID := nativeID }⟩, none)
    | (_, false) => (none, some e)

/-- Go error values as a graph, so that Unwrap cycles are expressible:
nodes are numbered, `unwrapEdge` is errors.Unwrap and `serviceAt` is
common.IsServiceError at each node. -/
structure ErrChain where
  unwrapEdge : Nat → Option Nat
  serviceAt : Nat → Option ServiceError

/-- The unwrap loop of HandleOCIServiceError run for at most `fuel`
iterations over an error graph.  `none` means the loop is still running
after `fuel` iterations; `some r` means the loop finished with serviceErr
= r.  The source loop has no visited set and no depth bound, so its
behaviour on any input is exactly the limit of this function over fuel. -/
def findServiceErrorFuel (g : ErrChain) : Nat → Option Nat → Option (Option ServiceError)
  | _, none => some none
  | 0, some _ => none
  | fuel + 1, some n =>
    match g.serviceAt n with
    | some se => some (some se)
    | none => findServiceErrorFuel g fuel (g.unwrapEdge n)

/-- util.HandleOCIServiceError over an error graph, fuel-bounded: `none`
means the unwrap loop has not terminated within `fuel` iterations. -/
def HandleOCIServiceErrorFuel (g : ErrChain) (fuel : Nat) (err : Option Nat) :
    Option (OperationErrorCode × Bool) :=
  match err with
  | none => some (.NotSet, false)
  | some n =>
    match findServiceErrorFuel g fuel (some n) with
    | none => none
    | some none => some (.NotSet, false)
    | some (some se) => some (classifyServiceError se)

/-- A two-node cycle of non-service errors: node 0 unwraps to node 1 and
node 1 unwraps back to node 0. -/
def cyclicErrChain : ErrChain where
  unwrapEdge := fun n => if n = 0 then some 1 else if n = 1 then some 0 else none
  serviceAt := fun _ => none

/-- resource.ReadRequest (the fields the modelled code uses). -/
structure ReadRequest where
  nativeID : String := ""
  resourceType : String := ""
  targetConfig : String := ""

/-- resource.CreateRequest (the fields the modelled code uses). -/
structure CreateRequest where
  resourceType : String := ""
  targetConfig : String := ""
  properties : Json := .null

/-- resource.UpdateRequest.  The Go field PatchDocument is a *string that
is ignored when nil or empty; both are modelled as `none`, a present
patch document as the parsed JSON value. -/
structure UpdateRequest where
  nativeID : String := ""
  resourceType : String := ""
  targetConfig : String := ""
  desiredProperties : Json := .null
  patchDocument : Option Json := none

/-- resource.DeleteRequest (the fields the modelled code uses). -/
structure DeleteRequest where
  nativeID : String := ""
  resourceType : String := ""

/-- resource.StatusRequest (the fields the modelled code uses). -/
structure StatusRequest where
  requestID : String := ""

/-- resource.ListRequest (the fields the modelled code uses). -/
structure ListRequest where
  additionalProperties : List (String × String) := []

/-- The Provisioner interface (provisioner.go): each call is modelled as
a function from the request to the call's outcome. -/
structure Provisioner where
  create : CreateRequest → Except String CreateResult
  update : UpdateRequest → Except String UpdateResult
  delete : DeleteRequest → Except String DeleteResult
  status : StatusRequest → Except String StatusResult
  read : ReadRequest → Except String ReadResult
  list : ListRequest → Except String ListResult

/-- readAfterWrite.Create (readafterwrite.go lines 26-45).  The Bool
component records whether inner.Read was invoked. -/
def readAfterWriteCreate (inner : Provisioner) (request : CreateRequest) :
    Except String CreateResult × Bool :=
  match inner.create request with
  | .error e => (.error e, false)
  | .ok result =>
    let pr := result.progressResult
    if pr.operationStatus = .Success ∧ pr.nativeID ≠ "" then
      match inner.read { nativeID := pr.nativeID, resourceType := request.resourceType,
                         targetConfig := request.targetConfig } with
      | .ok readResp =>
        if readResp.errorCode = .NotSet then
          (.ok ⟨{ pr with resourceProperties := readResp.properties }⟩, true)
        else
          (.ok result, true)
      | .error _ => (.ok result, true)
    else
      (.ok result, false)

/-- readAfterWrite.Update (readafterwrite.go lines 47-66).  The Bool
component records whether inner.Read was invoked. -/
def readAfterWriteUpdate (inner : Provisioner) (request : UpdateRequest) :
    Except String UpdateResult × Bool :=
  match inner.update request with
  | .error e => (.error e, false)
  | .ok result =>
    let pr := result.progressResult
    if pr.operationStatus = .Success ∧ pr.nativeID ≠ "" then
      match inner.read { nativeID := pr.nativeID, resourceType := request.resourceType,
                         targetConfig := request.targetConfig } with
      | .ok readResp =>
        if readResp.errorCode = .NotSet then
          (.ok ⟨{ pr with resourceProperties := readResp.properties }⟩, true)
        else
          (.ok result, true)
      | .error _ => (.ok result, true)
    else
      (.ok result, false)

/-- readAfterWrite.Delete (readafterwrite.go lines 68-70): pass-through. -/
def readAfterWriteDelete (inner : Provisioner) (request : DeleteRequest) :
    Except String DeleteResult :=
  inner.delete request

/-- readAfterWrite.Status (readafterwrite.go lines 72-74): pass-through. -/
def readAfterWriteStatus (inner : Provisioner) (request : StatusRequest) :
    Except String StatusResult :=
  inner.status request

/-- readAfterWrite.Read (readafterwrite.go lines 76-78): pass-through. -/
def readAfterWriteRead (inner : Provisioner) (request : ReadRequest) :
    Except String ReadResult :=
  inner.read request

/-- readAfterWrite.List (readafterwrite.go lines 80-82): pass-through. -/
def readAfterWriteList (inner : Provisioner) (request : ListRequest) :
    Except String ListResult :=
  inner.list request

/-- containerengine.WorkRequestStatusEnum. -/
inductive WorkRequestStatus where
  | Accepted
  | InProgress
  | Failed
  | Succeeded
  | Canceling
  | Canceled
deriving DecidableEq

/-- containerengine.WorkRequestResourceActionTypeEnum. -/
inductive WorkRequestResourceActionType where
  | Created
  | Updated
  | Deleted
  | Related
  | InProgress
  | Failed
deriving DecidableEq

/-- containerengine.WorkRequestResource. -/
structure WorkRequestResource where
  actionType : WorkRequestResourceActionType
  identifier : Option String := none

/-- A containerengine work request as returned by GetWorkRequest. -/
structure WorkRequest where
  status : WorkRequestStatus
  resources : List WorkRequestResource := []
  compartmentId : Option String := none

/-- containerengine.WorkRequestError (only the message is consumed). -/
structure WorkRequestError where
  message : Option String := none

/-- The container-engine client calls the poller makes, modelled as call
outcomes: GetWorkRequest by work-request id, ListWorkRequestErrors by
work-request id and compartment id. -/
structure ContainerEngineClient where
  getWorkRequest : String → Except String WorkRequest
  listWorkRequestErrors : String → String → Except String (List WorkRequestError)

/-- containerengine.extractResourceId (work_request_helpers.go lines
75-82): first resource whose action type matches and whose identifier is
present, "" otherwise. -/
def extractResourceId (resources : List WorkRequestResource)
    (actionType : WorkRequestResourceActionType) : String :=
  match resources with
  | [] => ""
  | r :: rest =>
    match r.identifier with
    | some id => if r.actionType = actionType then id else extractResourceId rest actionType
    | none => extractResourceId rest actionType

/-- containerengine.getWorkRequestErrors (work_request_helpers.go lines
85-114): best-effort retrieval of failure detail messages. -/
def getWorkRequestErrors (client : ContainerEngineClient) (workRequestId : String)
    (compartmentId : Option String) : String :=
  match compartmentId with
  | none => "Work request failed (no compartment ID to retrieve errors)"
  | some cid =>
    match client.listWorkRequestErrors workRequestId cid with
    | .error e => "Work request failed (could not retrieve error details: " ++ e ++ ")"
    | .ok items =>
      if items.isEmpty then "Work request failed (no error details available)"
      else
        let messages := items.filterMap (fun item => item.message)
        if messages.isEmpty then "Work request failed (no error messages)"
        else String.intercalate "; " messages

/-- containerengine.CheckWorkRequestStatus (work_request_helpers.go lines
20-72). -/
def CheckWorkRequestStatus (client : ContainerEngineClient) (workRequestId : String)
    (operation : Operation) : Except String ProgressResult :=
  match client.getWorkRequest workRequestId with
  | .error e => .error ("failed to get work request " ++ workRequestId ++ ": " ++ e)
  | .ok resp =>
    match resp.status with
    | .Succeeded =>
      let nativeID := extractResourceId resp.resources .Created
      let nativeID := if nativeID = "" then extractResourceId resp.resources .Updated else nativeID
      let nativeID := if nativeID = "" then extractResourceId resp.resources .Related else nativeID
      .ok { operation := operation, operationStatus := .Success, nativeID := nativeID }
    | .Failed =>
      .ok { operation := operation, operationStatus := .Failure,
            statusMessage := getWorkRequestErrors client workRequestId resp.compartmentId }
    | .Canceled =>
      .ok { operation := operation, operationStatus := .Failure,
            statusMessage := "Operation was canceled" }
    | _ =>
      .ok { operation := operation, operationStatus := .InProgress, requestID := workRequestId }

/-- containerengine.CreateInProgressResult (work_request_helpers.go lines
117-123). -/
def CreateInProgressResult (operation : Operation) (workRequestId : String) : ProgressResult :=
  { operation := operation, operationStatus := .InProgress, requestID := workRequestId }

/-- The calls VCNProvisioner.Delete and SecurityListProvisioner.Delete
make, modelled as call outcomes: the client constructor, the
provisioner's own Read by native id, and the provider delete endpoint by
native id. -/
structure CoreDeleteEnv where
  getVirtualNetworkClient : Except String Unit
  read : String → Except String ReadResult
  deleteEndpoint : String → Except String Unit

/-- VCNProvisioner.Delete (vcn.go lines 171-212).  The Bool component
records whether the provider's delete endpoint was invoked. -/
def VCNProvisionerDelete (env : CoreDeleteEnv) (nativeID : String) :
    Except String DeleteResult × Bool :=
  match env.getVirtualNetworkClient with
  | .error e => (.error ("failed to get VirtualNetwork client: " ++ e), false)
  | .ok _ =>
    match env.read nativeID with
    | .error e => (.error ("failed to read VCN before delete: " ++ e), false)
    | .ok readRes =>
      if readRes.errorCode = .NotFound then
        (.ok ⟨{ operation := .Delete, operationStatus := .Success, nativeID := nativeID }⟩, false)
      else
        match env.deleteEndpoint nativeID with
        | .error e => (.error ("failed to delete VCN: " ++ e), true)
        | .ok _ =>
          (.ok ⟨{ operation := .Delete, operationStatus := .Success, nativeID := nativeID }⟩, true)

/-- SecurityListProvisioner.Delete (patch.go bundle, lines 579-618).  The
Bool component records whether the provider's delete endpoint was
invoked. -/
def SecurityListProvisionerDelete (env : CoreDeleteEnv) (nativeID : String) :
    Except String DeleteResult × Bool :=
  match env.getVirtualNetworkClient with
  | .error e => (.error ("failed to get VirtualNetwork client: " ++ e), false)
  | .ok _ =>
    match env.read nativeID with
    | .error e => (.error ("failed to read SecurityList before delete: " ++ e), false)
    | .ok readRes =>
      if readRes.errorCode = .NotFound then
        (.ok ⟨{ operation := .Delete, operationStatus := .Success, nativeID := nativeID }⟩, false)
      else
        match env.deleteEndpoint nativeID with
        | .error e => (.error ("failed to delete SecurityList: " ++ e), true)
        | .ok _ =>
          (.ok ⟨{ operation := .Delete, operationStatus := .Success, nativeID := nativeID }⟩, true)

/-- RFC 6901 escape decoding over characters: "~0" decodes to "~" and
"~1" decodes to "/". -/
def unescapeChars : List Char → List Char
  | '~' :: '0' :: rest => '~' :: unescapeChars rest
  | '~' :: '1' :: rest => '/' :: unescapeChars rest
  | c :: rest => c :: unescapeChars rest
  | [] => []

/-- Split a character list on a separator (the semantics of
strings.Split on the segment characters). -/
def splitOnChar (c : Char) : List Char → List (List Char)
  | [] => [[]]
  | x :: xs =>
    if x = c then [] :: splitOnChar c xs
    else
      match splitOnChar c xs with
      | s :: rest => (x :: s) :: rest
      | [] => [[x]]

/-- RFC 6901 JSON Pointer parsing as the patch library performs it: ""
is the whole document, otherwise the pointer must start with "/" and its
"/"-separated segments are unescaped reference tokens. -/
def parsePointer (s : String) : Except String (List String) :=
  match s.toList with
  | [] => .ok []
  | '/' :: rest => .ok ((splitOnChar '/' rest).map (fun cs => String.mk (unescapeChars cs)))
  | _ => .error ("invalid JSON pointer: " ++ s)

/-- A decoded RFC 6902 patch operation. -/
structure PatchOp where
  op : String
  path : List String
  fromPath : Option (List String) := none
  value : Option Json := none

/-- Read a string-valued field of a patch-operation object. -/
def getStringField (fields : List (String × Json)) (k : String) : Except String String :=
  match List.lookup k fields with
  | some (.str s) => .ok s
  | _ => .error ("missing or non-string operation field: " ++ k)

/-- Decode the optional "from" pointer of a patch operation. -/
def decodeFromField (fields : List (String × Json)) : Except String (Option (List String)) :=
  match List.lookup "from" fields with
  | none => .ok none
  | some (.str s) =>
    match parsePointer s with
    | .error e => .error e
    | .ok p => .ok (some p)
  | some _ => .error "operation field from must be a string"

/-- Decode one RFC 6902 operation object. -/
def decodeOp (j : Json) : Except String PatchOp :=
  match j with
  | .obj fields =>
    match getStringField fields "op" with
    | .error e => .error e
    | .ok opName =>
      match getStringField fields "path" with
      | .error e => .error e
      | .ok pathStr =>
        match parsePointer pathStr with
        | .error e => .error e
        | .ok path =>
          match decodeFromField fields with
          | .error e => .error e
          | .ok fromPath =>
            .ok { op := opName, path := path, fromPath := fromPath,
                  value := List.lookup "value" fields }
  | _ => .error "patch operation must be an object"

/-- Decode a list of RFC 6902 operation objects in order. -/
def decodePatchOps : List Json → Except String (List PatchOp)
  | [] => .ok []
  | j :: rest =>
    match decodeOp j with
    | .error e => .error e
    | .ok o =>
      match decodePatchOps rest with
      | .error e => .error e
      | .ok os => .ok (o :: os)

/-- jsonpatch.DecodePatch, modelled from RFC 6902: a patch document is a
JSON array of operation objects. -/
def decodePatch : Json → Except String (List PatchOp)
  | .arr items => decodePatchOps items
  | _ => .error "patch document must be a JSON array"

/-- Navigate a JSON pointer path through nested objects. -/
def getAtPath : Json → List String → Except String Json
  | doc, [] => .ok doc
  | .obj fields, k :: rest =>
    match List.lookup k fields with
    | some v => getAtPath v rest
    | none => .error ("missing path segment: " ++ k)
  | _, k :: _ => .error ("cannot descend into non-object at segment: " ++ k)

/-- Set a key in an object's field list, replacing in place or appending. -/
def setKey : List (String × Json) → String → Json → List (String × Json)
  | [], k, v => [(k, v)]
  | (k0, v0) :: rest, k, v =>
    if k0 = k then (k0, v) :: rest else (k0, v0) :: setKey rest k v

/-- Remove a key from an object's field list (first occurrence). -/
def removeKey : List (String × Json) → String → List (String × Json)
  | [], _ => []
  | (k0, v0) :: rest, k =>
    if k0 = k then rest else (k0, v0) :: removeKey rest k

/-- Whether an object's field list has a key. -/
def hasKey (fields : List (String × Json)) (k : String) : Bool :=
  (List.lookup k fields).isSome

/-- RFC 6902 "add" for object documents: at the root the value replaces
the document, in an object the key is set, intermediate segments must
exist. -/
def addAtPath : Json → List String → Json → Except String Json
  | _, [], v => .ok v
  | .obj fields, [k], v => .ok (.obj (setKey fields k v))
  | .obj fields, k :: rest, v =>
    match List.lookup k fields with
    | some child =>
      match addAtPath child rest v with
      | .error e => .error e
      | .ok patched => .ok (.obj (setKey fields k patched))
    | none => .error ("add: missing path segment: " ++ k)
  | _, k :: _, _ => .error ("add: cannot descend into non-object at segment: " ++ k)

/-- RFC 6902 "replace" for object documents: like "add" but the target
location must already exist. -/
def replaceAtPath : Json → List String → Json → Except String Json
  | _, [], v => .ok v
  | .obj fields, [k], v =>
    if hasKey fields k then .ok (.obj (setKey fields k v))
    else .error ("replace: missing key: " ++ k)
  | .obj fields, k :: rest, v =>
    match List.lookup k fields with
    | some child =>
      match replaceAtPath child rest v with
      | .error e => .error e
      | .ok patched => .ok (.obj (setKey fields k patched))
    | none => .error ("replace: missing path segment: " ++ k)
  | _, k :: _, _ => .error ("replace: cannot descend into non-object at segment: " ++ k)

/-- RFC 6902 "remove" for object documents: the target location must
exist and is deleted. -/
def removeAtPath : Json → List String → Except String Json
  | _, [] => .error "remove: cannot remove the whole document"
  | .obj fields, [k] =>
    if hasKey fields k then .ok (.obj (removeKey fields k))
    else .error ("remove: missing key: " ++ k)
  | .obj fields, k :: rest =>
    match List.lookup k fields with
    | some child =>
      match removeAtPath child rest with
      | .error e => .error e
      | .ok patched => .ok (.obj (setKey fields k patched))
    | none => .error ("remove: missing path segment: " ++ k)
  | _, k :: _ => .error ("remove: cannot descend into non-object at segment: " ++ k)

/-- Apply one RFC 6902 operation to a document (the per-operation step of
jsonpatch.Patch.Apply, modelled for object documents). -/
def applyOp (doc : Json) (o : PatchOp) : Except String Json :=
  match o.op with
  | "add" =>
    match o.value with
    | some v => addAtPath doc o.path v
    | none => .error "add: missing value"
  | "replace" =>
    match o.value with
    | some v => replaceAtPath doc o.path v
    | none => .error "replace: missing value"
  | "remove" => removeAtPath doc o.path
  | "test" =>
    match getAtPath doc o.path with
    | .error e => .error e
    | .ok current =>
      match o.value with
      | some v => if Json.beq current v then .ok doc else .error "test operation failed"
      | none => .error "test: missing value"
  | "move" =>
    match o.fromPath with
    | none => .error "move: missing from"
    | some fp =>
      match getAtPath doc fp with
      | .error e => .error e
      | .ok v =>
        match removeAtPath doc fp with
        | .error e => .error e
        | .ok doc2 => addAtPath doc2 o.path v
  | "copy" =>
    match o.fromPath with
    | none => .error "copy: missing from"
    | some fp =>
      match getAtPath doc fp with
      | .error e => .error e
      | .ok v => addAtPath doc o.path v
  | other => .error ("unexpected kind of operation: " ++ other)

/-- jsonpatch.Patch.Apply: fold the decoded operations over the document
in order. -/
def applyPatch : List PatchOp → Json → Except String Json
  | [], doc => .ok doc
  | o :: rest, doc =>
    match applyOp doc o with
    | .error e => .error e
    | .ok doc2 => applyPatch rest doc2

/-- Parse a JSON document into a property map (json.Unmarshal into
map[string]any succeeds exactly on objects). -/
def asObject : Json → Option (List (String × Json))
  | .obj fields => some fields
  | _ => none

/-- util.ApplyPatchDocument (patch.go lines 16-58): without a patch
document, parse the desired properties; with one, read the current
snapshot through readFunc, decode the patch, apply it to the snapshot and
parse the merged result. -/
def ApplyPatchDocument (request : UpdateRequest)
    (readFunc : ReadRequest → Except String ReadResult) :
    Except String (List (String × Json)) :=
  match request.patchDocument with
  | none =>
    match asObject request.desiredProperties with
    | some props => .ok props
    | none => .error "failed to parse properties"
  | some patchDoc =>
    match readFunc { nativeID := request.nativeID, resourceType := request.resourceType,
                     targetConfig := request.targetConfig } with
    | .error e => .error ("failed to read existing resource: " ++ e)
    | .ok readResult =>
      match decodePatch patchDoc with
      | .error e => .error ("failed to decode patch document: " ++ e)
      | .ok patch =>
        match applyPatch patch readResult.properties with
        | .error e => .error ("failed to apply patch: " ++ e)
        | .ok patchedDoc =>
          match asObject patchedDoc with
          | some mergedProps => .ok mergedProps
          | none => .error "failed to parse merged properties"

/-- When iterating errors.Unwrap n times from e reaches a service error,
the unwrap loop of HandleOCIServiceError finds exactly that service
error (service errors are leaves of the cause chain). -/
theorem findServiceError_of_unwrapN (n : Nat) (e : GoError) (se : ServiceError)
    (h : unwrapN n e = some (.service se)) : findServiceError e = some se := by
  induction n generalizing e with
  | zero =>
    simp [unwrapN] at h
    subst h
    rfl
  | succ n ih =>
    cases e with
    | service se2 => simp [unwrapN, Unwrap] at h
    | wrap msg cause =>
      simp [unwrapN, Unwrap] at h
      simpa [findServiceError] using ih cause h
    | plain msg => simp [unwrapN, Unwrap] at h

/-- C1: an error whose cause chain contains, at any unwrap depth, a
provider service error with HTTP status 404, 409, 429, 500/502/503 or
504 classifies as NotFound, ResourceConflict, Throttling,
ServiceInternalError or ServiceTimeout respectively with matched = true;
the status code is consulted first, and the symbolic provider code
("NotAuthorizedOrNotFound" to NotFound, "TooManyRequests" to Throttling)
is consulted only when the status code matches none of these. -/
theorem HandleOCIServiceError_spec (e : GoError) (n : Nat) (se : ServiceError)
    (h : unwrapN n e = some (.service se)) :
    (se.httpStatusCode = 404 → HandleOCIServiceError (some e) = (.NotFound, true)) ∧
    (se.httpStatusCode = 409 → HandleOCIServiceError (some e) = (.ResourceConflict, true)) ∧
    (se.httpStatusCode = 429 → HandleOCIServiceError (some e) = (.Throttling, true)) ∧
    ((se.httpStatusCode = 500 ∨ se.httpStatusCode = 502 ∨ se.httpStatusCode = 503) →
      HandleOCIServiceError (some e) = (.ServiceInternalError, true)) ∧
    (se.httpStatusCode = 504 → HandleOCIServiceError (some e) = (.ServiceTimeout, true)) ∧
    (se.httpStatusCode ∉ ([404, 409, 429, 500, 502, 503, 504] : List Int) →
      se.code = "NotAuthorizedOrNotFound" → HandleOCIServiceError (some e) = (.NotFound, true)) ∧
    (se.httpStatusCode ∉ ([404, 409, 429, 500, 502, 503, 504] : List Int) →
      se.code = "TooManyRequests" → HandleOCIServiceError (some e) = (.Throttling, true)) := by
  have hf : findServiceError e = some se := findServiceError_of_unwrapN n e se h
  have hcl : HandleOCIServiceError (some e) = classifyServiceError se := by
    simp [HandleOCIServiceError, hf]
  refine ⟨fun h1 => ?_, fun h1 => ?_, fun h1 => ?_, fun h1 => ?_, fun h1 => ?_,
          fun h1 h2 => ?_, fun h1 h2 => ?_⟩
  · rw [hcl]; simp [classifyServiceError, h1]
  · rw [hcl]; simp [classifyServiceError, h1]
  · rw [hcl]; simp [classifyServiceError, h1]
  · rw [hcl]; rcases h1 with h1 | h1 | h1 <;> simp [classifyServiceError, h1]
  · rw [hcl]; simp [classifyServiceError, h1]
  · rw [hcl]
    simp only [List.mem_cons, List.not_mem_nil, or_false, not_or] at h1
    obtain ⟨h404, h409, h429, h500, h502, h503, h504⟩ := h1
    simp [classifyServiceError, h404, h409, h429, h500, h502, h503, h504, h2]
  · rw [hcl]
    simp only [List.mem_cons, List.not_mem_nil, or_false, not_or] at h1
    obtain ⟨h404, h409, h429, h500, h502, h503, h504⟩ := h1
    have hcode : ("TooManyRequests" : String) ≠ "NotAuthorizedOrNotFound" := by decide
    simp [classifyServiceError, h404, h409, h429, h500, h502, h503, h504, h2, hcode]

/-- Witness for C1, at a 404 service error wrapped one level deep. -/
theorem HandleOCIServiceError_spec_witness :
    HandleOCIServiceError (some (.wrap "request failed"
      (.service { httpStatusCode := 404, code := "NotAuthorizedOrNotFound",
                  message := "not found" }))) = (.NotFound, true) :=
  (HandleOCIServiceError_spec
    (.wrap "request failed"
      (.service { httpStatusCode := 404, code := "NotAuthorizedOrNotFound",
                  message := "not found" }))
    1 { httpStatusCode := 404, code := "NotAuthorizedOrNotFound", message := "not found" }
    rfl).1 rfl

/-- C2 counterexample: at a nil error input all three result builders
return a pair with both components nil, so "never both nil" fails. -/
theorem HandleErrors_nil_both_nil :
    HandleCreateError none "OCI::Core::VCN" "OCI::Core::VCN" = (none, none) ∧
    HandleUpdateError none "OCI::Core::VCN" "vcn-1" "OCI::Core::VCN" = (none, none) ∧
    HandleDeleteError none "OCI::Core::VCN" "vcn-1" "OCI::Core::VCN" = (none, none) :=
  ⟨rfl, rfl, rfl⟩

/-- C2 amended: for every NON-nil error input, each of the three result
builders returns exactly one non-nil component — a Failure result
carrying the classification as ErrorCode when the classifier matches,
and (nil, the original error) when it does not. -/
theorem HandleErrors_exactly_one (e : GoError) (rt nid opName : String) :
    (Xor' ((HandleCreateError (some e) rt opName).1 = none)
          ((HandleCreateError (some e) rt opName).2 = none)) ∧
    (Xor' ((HandleUpdateError (some e) rt nid opName).1 = none)
          ((HandleUpdateError (some e) rt nid opName).2 = none)) ∧
    (Xor' ((HandleDeleteError (some e) rt nid opName).1 = none)
          ((HandleDeleteError (some e) rt nid opName).2 = none)) ∧
    ((HandleOCIServiceError (some e)).2 = true →
      HandleCreateError (some e) rt opName =
        (some ⟨{ operation := .Create, operationStatus := .Failure,
                 errorCode := (HandleOCIServiceError (some e)).1,
                 statusMessage := builderMessage e opName "created" }⟩, none) ∧
      HandleUpdateError (some e) rt nid opName =
        (some ⟨{ operation := .Update, operationStatus := .Failure,
                 errorCode := (HandleOCIServiceError (some e)).1,
                 statusMessage := builderMessage e opName "updated",
                 nativeID := nid }⟩, none) ∧
      HandleDeleteError (some e) rt nid opName =
        (some ⟨{ operation := .Delete, operationStatus := .Failure,
                 errorCode := (HandleOCIServiceError (some e)).1,
                 statusMessage := builderMessage e opName "deleted",
                 nativeID := nid }⟩, none)) ∧
    ((HandleOCIServiceError (some e)).2 = false →
      HandleCreateError (some e) rt opName = (none, some e) ∧
      HandleUpdateError (some e) rt nid opName = (none, some e) ∧
      HandleDeleteError (some e) rt nid opName = (none, some e)) := by
  rcases hh : HandleOCIServiceError (some e) with ⟨ec, b⟩
  cases b with
  | true =>
    refine ⟨?_, ?_, ?_, ?_, ?_⟩ <;>
      simp [HandleCreateError, HandleUpdateError, HandleDeleteError, hh, Xor']
  | false =>
    refine ⟨?_, ?_, ?_, ?_, ?_⟩ <;>
      simp [HandleCreateError, HandleUpdateError, HandleDeleteError, hh, Xor']

/-- Witness for C2's amended claim, at a 404 service error. -/
theorem HandleErrors_exactly_one_witness :
    HandleCreateError
        (some (.service { httpStatusCode := 404, code := "NotFound", message := "no such vcn" }))
        "OCI::Core::VCN" "OCI::Core::VCN" =
      (some ⟨{ operation := .Create, operationStatus := .Failure, errorCode := .NotFound,
               statusMessage := "OCI::Core::VCN cannot be created: no such vcn" }⟩, none) :=
  ((HandleErrors_exactly_one
      (.service { httpStatusCode := 404, code := "NotFound", message := "no such vcn" })
      "OCI::Core::VCN" "vcn-1" "OCI::Core::VCN").2.2.2.1 rfl).1

/-- On the two-node unwrap cycle the fuel-bounded unwrap loop is still
running for every fuel bound, starting from either node. -/
theorem findServiceErrorFuel_cyclic (fuel : Nat) :
    findServiceErrorFuel cyclicErrChain fuel (some 0) = none ∧
    findServiceErrorFuel cyclicErrChain fuel (some 1) = none := by
  induction fuel with
  | zero => exact ⟨rfl, rfl⟩
  | succ n ih =>
    constructor
    · simpa [findServiceErrorFuel, cyclicErrChain] using ih.2
    · simpa [findServiceErrorFuel, cyclicErrChain] using ih.1

/-- C6: a nil error classifies immediately as (NotSet, false), but on a
cyclic cause chain of non-service errors the unwrap loop of
HandleOCIServiceError never finishes: for every iteration bound the
fuel-bounded model reports the loop still running, because the code
bounds neither the unwrap depth nor tracks visited errors. -/
theorem HandleOCIServiceError_cycle_divergence :
    (∀ (g : ErrChain) (fuel : Nat),
      HandleOCIServiceErrorFuel g fuel none = some (.NotSet, false)) ∧
    (∀ fuel : Nat, HandleOCIServiceErrorFuel cyclicErrChain fuel (some 0) = none) := by
  constructor
  · intro g fuel; rfl
  · intro fuel
    have h := (findServiceErrorFuel_cyclic fuel).1
    simp [HandleOCIServiceErrorFuel, h]

/-- Rebuilding a CreateResult with its own properties is the identity. -/
theorem createResult_eta (r : CreateResult) :
    (⟨{ r.progressResult with
        resourceProperties := r.progressResult.resourceProperties }⟩ : CreateResult) = r := rfl

/-- Rebuilding an UpdateResult with its own properties is the identity. -/
theorem updateResult_eta (r : UpdateResult) :
    (⟨{ r.progressResult with
        resourceProperties := r.progressResult.resourceProperties }⟩ : UpdateResult) = r := rfl

/-- C3: behaviour of the read-after-write decorator on Create and Update.
An inner error is propagated unchanged with no read attempted; on a
synchronous Success with non-empty NativeID the decorator reads and,
exactly when the read succeeds with an empty error code, replaces the
result's properties with the read's; on a read error or a non-empty read
error code the inner result is returned unchanged (the read error is
never surfaced); with status not Success or an empty NativeID no read is
attempted and the inner result is returned unchanged.  The Bool
component records whether inner.Read was invoked. -/
theorem readAfterWrite_spec (inner : Provisioner) (creq : CreateRequest) (ureq : UpdateRequest) :
    (∀ e, inner.create creq = .error e →
      readAfterWriteCreate inner creq = (.error e, false)) ∧
    (∀ result rr, inner.create creq = .ok result →
      result.progressResult.operationStatus = .Success →
      result.progressResult.nativeID ≠ "" →
      inner.read { nativeID := result.progressResult.nativeID,
                   resourceType := creq.resourceType,
                   targetConfig := creq.targetConfig } = .ok rr →
      rr.errorCode = .NotSet →
      readAfterWriteCreate inner creq =
        (.ok ⟨{ result.progressResult with resourceProperties := rr.properties }⟩, true)) ∧
    (∀ result e, inner.create creq = .ok result →
      result.progressResult.operationStatus = .Success →
      result.progressResult.nativeID ≠ "" →
      inner.read { nativeID := result.progressResult.nativeID,
                   resourceType := creq.resourceType,
                   targetConfig := creq.targetConfig } = .error e →
      readAfterWriteCreate inner creq = (.ok result, true)) ∧
    (∀ result rr, inner.create creq = .ok result →
      result.progressResult.operationStatus = .Success →
      result.progressResult.nativeID ≠ "" →
      inner.read { nativeID := result.progressResult.nativeID,
                   resourceType := creq.resourceType,
                   targetConfig := creq.targetConfig } = .ok rr →
      rr.errorCode ≠ .NotSet →
      readAfterWriteCreate inner creq = (.ok result, true)) ∧
    (∀ result, inner.create creq = .ok result →
      ¬(result.progressResult.operationStatus = .Success ∧
        result.progressResult.nativeID ≠ "") →
      readAfterWriteCreate inner creq = (.ok result, false)) ∧
    (∀ e, inner.update ureq = .error e →
      readAfterWriteUpdate inner ureq = (.error e, false)) ∧
    (∀ result rr, inner.update ureq = .ok result →
      result.progressResult.operationStatus = .Success →
      result.progressResult.nativeID ≠ "" →
      inner.read { nativeID := result.progressResult.nativeID,
                   resourceType := ureq.resourceType,
                   targetConfig := ureq.targetConfig } = .ok rr →
      rr.errorCode = .NotSet →
      readAfterWriteUpdate inner ureq =
        (.ok ⟨{ result.progressResult with resourceProperties := rr.properties }⟩, true)) ∧
    (∀ result e, inner.update ureq = .ok result →
      result.progressResult.operationStatus = .Success →
      result.progressResult.nativeID ≠ "" →
      inner.read { nativeID := result.progressResult.nativeID,
                   resourceType := ureq.resourceType,
                   targetConfig := ureq.targetConfig } = .error e →
      readAfterWriteUpdate inner ureq = (.ok result, true)) ∧
    (∀ result rr, inner.update ureq = .ok result →
      result.progressResult.operationStatus = .Success →
      result.progressResult.nativeID ≠ "" →
      inner.read { nativeID := result.progressResult.nativeID,
                   resourceType := ureq.resourceType,
                   targetConfig := ureq.targetConfig } = .ok rr →
      rr.errorCode ≠ .NotSet →
      readAfterWriteUpdate inner ureq = (.ok result, true)) ∧
    (∀ result, inner.update ureq = .ok result →
      ¬(result.progressResult.operationStatus = .Success ∧
        result.progressResult.nativeID ≠ "") →
      readAfterWriteUpdate inner ureq = (.ok result, false)) := by
  refine ⟨fun e h1 => ?_, fun result rr h1 h2 h3 h4 h5 => ?_, fun result e h1 h2 h3 h4 => ?_,
          fun result rr h1 h2 h3 h4 h5 => ?_, fun result h1 hc => ?_,
          fun e h1 => ?_, fun result rr h1 h2 h3 h4 h5 => ?_, fun result e h1 h2 h3 h4 => ?_,
          fun result rr h1 h2 h3 h4 h5 => ?_, fun result h1 hc => ?_⟩
  · simp [readAfterWriteCreate, h1]
  · simp [readAfterWriteCreate, h1, h2, h3, h4, h5]
  · simp [readAfterWriteCreate, h1, h2, h3, h4]
  · simp [readAfterWriteCreate, h1, h2, h3, h4, h5]
  · simp [readAfterWriteCreate, h1, hc]
  · simp [readAfterWriteUpdate, h1]
  · simp [readAfterWriteUpdate, h1, h2, h3, h4, h5]
  · simp [readAfterWriteUpdate, h1, h2, h3, h4]
  · simp [readAfterWriteUpdate, h1, h2, h3, h4, h5]
  · simp [readAfterWriteUpdate, h1, hc]

/-- A sample inner provisioner: synchronous Success writes with partial
properties, and a read returning the complete property set. -/
def sampleInner : Provisioner where
  create := fun _ => .ok ⟨{ operation := .Create, operationStatus := .Success,
                            nativeID := "ocid1.volume.oc1..abc",
                            resourceProperties := .obj [("Id", .str "ocid1.volume.oc1..abc")] }⟩
  update := fun _ => .ok ⟨{ operation := .Update, operationStatus := .Success,
                            nativeID := "ocid1.volume.oc1..abc",
                            resourceProperties := .obj [("Id", .str "ocid1.volume.oc1..abc")] }⟩
  delete := fun _ => .ok ⟨{ operation := .Delete, operationStatus := .Success }⟩
  status := fun _ => .ok ⟨{ operation := .CheckStatus, operationStatus := .Success }⟩
  read := fun _ => .ok { properties := .obj [("Id", .str "ocid1.volume.oc1..abc"),
                                             ("CompartmentId", .str "ocid1.compartment.oc1..xyz"),
                                             ("SizeInGBs", .num 50)] }
  list := fun _ => .ok {}

/-- Witness for C3: a synchronous Create success followed by a
successful read replaces the properties with the read's full set. -/
theorem readAfterWrite_spec_witness :
    readAfterWriteCreate sampleInner { resourceType := "OCI::Core::Volume" } =
      (.ok ⟨{ operation := .Create, operationStatus := .Success,
              nativeID := "ocid1.volume.oc1..abc",
              resourceProperties := .obj [("Id", .str "ocid1.volume.oc1..abc"),
                ("CompartmentId", .str "ocid1.compartment.oc1..xyz"),
                ("SizeInGBs", .num 50)] }⟩, true) :=
  (readAfterWrite_spec sampleInner { resourceType := "OCI::Core::Volume" } {}).2.1
    _ _ rfl rfl (by decide) rfl rfl

/-- C10: the decorator changes at most the ResourceProperties field of a
Create or Update result — every other field is exactly the inner
operator's — and Delete, Status, Read and List pass through entirely
unchanged. -/
theorem readAfterWrite_frame (inner : Provisioner) :
    (∀ (creq : CreateRequest) (result : CreateResult), inner.create creq = .ok result →
      ∃ p, (readAfterWriteCreate inner creq).1 =
        .ok ⟨{ result.progressResult with resourceProperties := p }⟩) ∧
    (∀ (ureq : UpdateRequest) (result : UpdateResult), inner.update ureq = .ok result →
      ∃ p, (readAfterWriteUpdate inner ureq).1 =
        .ok ⟨{ result.progressResult with resourceProperties := p }⟩) ∧
    (∀ req, readAfterWriteDelete inner req = inner.delete req) ∧
    (∀ req, readAfterWriteStatus inner req = inner.status req) ∧
    (∀ req, readAfterWriteRead inner req = inner.read req) ∧
    (∀ req, readAfterWriteList inner req = inner.list req) := by
  refine ⟨?_, ?_, fun req => rfl, fun req => rfl, fun req => rfl, fun req => rfl⟩
  · intro creq result h1
    by_cases hc : result.progressResult.operationStatus = .Success ∧
        result.progressResult.nativeID ≠ ""
    · cases hr : inner.read { nativeID := result.progressResult.nativeID,
                              resourceType := creq.resourceType,
                              targetConfig := creq.targetConfig } with
      | error e =>
        refine ⟨result.progressResult.resourceProperties, ?_⟩
        simp [readAfterWriteCreate, h1, hc, hr]
        rw [← hc.1]
      | ok rr =>
        by_cases he : rr.errorCode = .NotSet
        · exact ⟨rr.properties, by simp [readAfterWriteCreate, h1, hc, hr, he]⟩
        · refine ⟨result.progressResult.resourceProperties, ?_⟩
          simp [readAfterWriteCreate, h1, hc, hr, he]
          rw [← hc.1]
    · exact ⟨result.progressResult.resourceProperties,
        by simp [readAfterWriteCreate, h1, hc, createResult_eta]⟩
  · intro ureq result h1
    by_cases hc : result.progressResult.operationStatus = .Success ∧
        result.progressResult.nativeID ≠ ""
    · cases hr : inner.read { nativeID := result.progressResult.nativeID,
                              resourceType := ureq.resourceType,
                              targetConfig := ureq.targetConfig } with
      | error e =>
        refine ⟨result.progressResult.resourceProperties, ?_⟩
        simp [readAfterWriteUpdate, h1, hc, hr]
        rw [← hc.1]
      | ok rr =>
        by_cases he : rr.errorCode = .NotSet
        · exact ⟨rr.properties, by simp [readAfterWriteUpdate, h1, hc, hr, he]⟩
        · refine ⟨result.progressResult.resourceProperties, ?_⟩
          simp [readAfterWriteUpdate, h1, hc, hr, he]
          rw [← hc.1]
    · exact ⟨result.progressResult.resourceProperties,
        by simp [readAfterWriteUpdate, h1, hc, updateResult_eta]⟩

/-- Witness for C10: the decorated Create at the sample inner provisioner
differs from the inner result at most in the properties field. -/
theorem readAfterWrite_frame_witness :
    ∃ p, (readAfterWriteCreate sampleInner { resourceType := "OCI::Core::Volume" }).1 =
      .ok ⟨{ operation := .Create, operationStatus := .Success,
             nativeID := "ocid1.volume.oc1..abc",
             resourceProperties := p }⟩ :=
  (readAfterWrite_frame sampleInner).1 { resourceType := "OCI::Core::Volume" } _ rfl

/-- C4: the work-request poller maps Accepted/InProgress/Canceling to an
InProgress result carrying the polled handle as RequestID; Succeeded to a
Success result whose NativeID comes from the resource list by the fixed
preference order created, then updated, then related (empty if none);
and Canceled to a Failure result with the fixed cancellation message. -/
theorem CheckWorkRequestStatus_spec (client : ContainerEngineClient) (wrId : String)
    (op : Operation) (resp : WorkRequest) (h : client.getWorkRequest wrId = .ok resp) :
    ((resp.status = .Accepted ∨ resp.status = .InProgress ∨ resp.status = .Canceling) →
      CheckWorkRequestStatus client wrId op =
        .ok { operation := op, operationStatus := .InProgress, requestID := wrId }) ∧
    (resp.status = .Succeeded →
      ∃ nid, CheckWorkRequestStatus client wrId op =
          .ok { operation := op, operationStatus := .Success, nativeID := nid } ∧
        (extractResourceId resp.resources .Created ≠ "" →
          nid = extractResourceId resp.resources .Created) ∧
        (extractResourceId resp.resources .Created = "" →
          extractResourceId resp.resources .Updated ≠ "" →
          nid = extractResourceId resp.resources .Updated) ∧
        (extractResourceId resp.resources .Created = "" →
          extractResourceId resp.resources .Updated = "" →
          nid = extractResourceId resp.resources .Related)) ∧
    (resp.status = .Canceled →
      CheckWorkRequestStatus client wrId op =
        .ok { operation := op, operationStatus := .Failure,
              statusMessage := "Operation was canceled" }) := by
  refine ⟨fun h1 => ?_, fun h1 => ?_, fun h1 => ?_⟩
  · rcases h1 with h1 | h1 | h1 <;> simp [CheckWorkRequestStatus, h, h1]
  · by_cases hcr : extractResourceId resp.resources .Created = ""
    · by_cases hup : extractResourceId resp.resources .Updated = ""
      · exact ⟨extractResourceId resp.resources .Related,
          by simp [CheckWorkRequestStatus, h, h1, hcr, hup],
          fun hne => absurd hcr hne, fun _ hne => absurd hup hne, fun _ _ => rfl⟩
      · exact ⟨extractResourceId resp.resources .Updated,
          by simp [CheckWorkRequestStatus, h, h1, hcr, hup],
          fun hne => absurd hcr hne, fun _ _ => rfl, fun _ h2 => absurd h2 hup⟩
    · exact ⟨extractResourceId resp.resources .Created,
        by simp [CheckWorkRequestStatus, h, h1, hcr],
        fun _ => rfl, fun h2 => absurd h2 hcr, fun h2 _ => absurd h2 hcr⟩
  · simp [CheckWorkRequestStatus, h, h1]

/-- A sample client whose work request is still running. -/
def sampleCEClientInProgress : ContainerEngineClient where
  getWorkRequest := fun _ => .ok { status := .InProgress }
  listWorkRequestErrors := fun _ _ => .ok []

/-- Witness for C4: polling an in-progress work request yields an
InProgress result carrying the polled handle. -/
theorem CheckWorkRequestStatus_spec_witness :
    CheckWorkRequestStatus sampleCEClientInProgress "wr-1" .Create =
      .ok { operation := .Create, operationStatus := .InProgress, requestID := "wr-1" } :=
  (CheckWorkRequestStatus_spec sampleCEClientInProgress "wr-1" .Create
    { status := .InProgress } rfl).1 (Or.inr (Or.inl rfl))

/-- C5: a transport error while querying the work request's own status is
propagated as a hard error with the polling prefix, never a classified
result; whereas a Failed work request yields a Failure result whose
message comes from the best-effort detail fetch — a missing compartment
id or an error listing the details degrades the message, it never fails
the poll. -/
theorem CheckWorkRequestStatus_error_spec (client : ContainerEngineClient) (wrId : String)
    (op : Operation) :
    (∀ e, client.getWorkRequest wrId = .error e →
      CheckWorkRequestStatus client wrId op =
        .error ("failed to get work request " ++ wrId ++ ": " ++ e)) ∧
    (∀ resp, client.getWorkRequest wrId = .ok resp → resp.status = .Failed →
      CheckWorkRequestStatus client wrId op =
        .ok { operation := op, operationStatus := .Failure,
              statusMessage := getWorkRequestErrors client wrId resp.compartmentId }) ∧
    (getWorkRequestErrors client wrId none =
      "Work request failed (no compartment ID to retrieve errors)") ∧
    (∀ cid e, client.listWorkRequestErrors wrId cid = .error e →
      getWorkRequestErrors client wrId (some cid) =
        "Work request failed (could not retrieve error details: " ++ e ++ ")") := by
  refine ⟨fun e h1 => ?_, fun resp h1 h2 => ?_, rfl, fun cid e h1 => ?_⟩
  · simp [CheckWorkRequestStatus, h1]
  · simp [CheckWorkRequestStatus, h1, h2]
  · simp [getWorkRequestErrors, h1]

/-- A sample client whose calls all fail at the transport level. -/
def sampleCEClientDown : ContainerEngineClient where
  getWorkRequest := fun _ => .error "connection refused"
  listWorkRequestErrors := fun _ _ => .error "connection refused"

/-- Witness for C5: a transport error polling the status is a hard
error, and a detail-fetch error degrades the failure message. -/
theorem CheckWorkRequestStatus_error_spec_witness :
    CheckWorkRequestStatus sampleCEClientDown "wr-9" .Delete =
      .error ("failed to get work request " ++ "wr-9" ++ ": " ++ "connection refused") ∧
    getWorkRequestErrors sampleCEClientDown "wr-9" (some "cmp-1") =
      "Work request failed (could not retrieve error details: " ++ "connection refused" ++ ")" :=
  ⟨(CheckWorkRequestStatus_error_spec sampleCEClientDown "wr-9" .Delete).1
      "connection refused" rfl,
   (CheckWorkRequestStatus_error_spec sampleCEClientDown "wr-9" .Delete).2.2.2
      "cmp-1" "connection refused" rfl⟩

/-- C9: provided the supplied work-request handle is non-empty, every
InProgress result the poller produces, and every result of
CreateInProgressResult, carries a non-empty RequestID. -/
theorem inProgress_requestID_nonempty (client : ContainerEngineClient) (wrId : String)
    (op : Operation) (h : wrId ≠ "") :
    (∀ pr, CheckWorkRequestStatus client wrId op = .ok pr →
      pr.operationStatus = .InProgress → pr.requestID ≠ "") ∧
    ((CreateInProgressResult op wrId).operationStatus = .InProgress ∧
      (CreateInProgressResult op wrId).requestID ≠ "") := by
  constructor
  · intro pr hpr hst
    cases hg : client.getWorkRequest wrId with
    | error e => simp [CheckWorkRequestStatus, hg] at hpr
    | ok resp =>
      cases hs : resp.status with
      | Succeeded =>
        simp only [CheckWorkRequestStatus, hg, hs, Except.ok.injEq] at hpr
        subst hpr
        simp at hst
      | Failed =>
        simp only [CheckWorkRequestStatus, hg, hs, Except.ok.injEq] at hpr
        subst hpr
        simp at hst
      | Canceled =>
        simp only [CheckWorkRequestStatus, hg, hs, Except.ok.injEq] at hpr
        subst hpr
        simp at hst
      | Accepted =>
        simp only [CheckWorkRequestStatus, hg, hs, Except.ok.injEq] at hpr
        subst hpr
        simpa using h
      | InProgress =>
        simp only [CheckWorkRequestStatus, hg, hs, Except.ok.injEq] at hpr
        subst hpr
        simpa using h
      | Canceling =>
        simp only [CheckWorkRequestStatus, hg, hs, Except.ok.injEq] at hpr
        subst hpr
        simpa using h
  · exact ⟨rfl, h⟩

/-- Witness for C9, at the handle "wr-1". -/
theorem inProgress_requestID_nonempty_witness :
    (CreateInProgressResult .Create "wr-1").operationStatus = .InProgress ∧
    (CreateInProgressResult .Create "wr-1").requestID ≠ "" :=
  (inProgress_requestID_nonempty sampleCEClientInProgress "wr-1" .Create (by decide)).2

/-- C7: when the read-before-delete check reports NotFound, both the VCN
and the SecurityList Delete return a Success result carrying the
request's native id, without invoking the provider's delete endpoint. -/
theorem delete_notFound_idempotent (env : CoreDeleteEnv) (nid : String) (rr : ReadResult)
    (hc : env.getVirtualNetworkClient = .ok ()) (hr : env.read nid = .ok rr)
    (hnf : rr.errorCode = .NotFound) :
    VCNProvisionerDelete env nid =
      (.ok ⟨{ operation := .Delete, operationStatus := .Success, nativeID := nid }⟩, false) ∧
    SecurityListProvisionerDelete env nid =
      (.ok ⟨{ operation := .Delete, operationStatus := .Success, nativeID := nid }⟩, false) := by
  constructor <;> simp [VCNProvisionerDelete, SecurityListProvisionerDelete, hc, hr, hnf]

/-- A sample environment in which the delete target no longer exists. -/
def sampleDeleteEnvGone : CoreDeleteEnv where
  getVirtualNetworkClient := .ok ()
  read := fun _ => .ok { resourceType := "OCI::Core::VCN", errorCode := .NotFound }
  deleteEndpoint := fun _ => .ok ()

/-- Witness for C7: deleting an already-absent VCN succeeds without
calling the delete endpoint. -/
theorem delete_notFound_idempotent_witness :
    VCNProvisionerDelete sampleDeleteEnvGone "vcn-1" =
      (.ok ⟨{ operation := .Delete, operationStatus := .Success, nativeID := "vcn-1" }⟩, false) :=
  (delete_notFound_idempotent sampleDeleteEnvGone "vcn-1"
    { resourceType := "OCI::Core::VCN", errorCode := .NotFound } rfl rfl rfl).1

/-- Looking up the key just set by setKey yields the new value. -/
theorem lookup_setKey_self (fields : List (String × Json)) (F : String) (V : Json) :
    List.lookup F (setKey fields F V) = some V := by
  induction fields with
  | nil => simp [setKey, List.lookup]
  | cons kv rest ih =>
    obtain ⟨k0, v0⟩ := kv
    by_cases h : k0 = F
    · subst h; simp [setKey, List.lookup]
    · have hb : (F == k0) = false := beq_eq_false_iff_ne.mpr (Ne.symm h)
      simp [setKey, h, List.lookup, hb, ih]

/-- Looking up any other key after setKey is unchanged. -/
theorem lookup_setKey_other (fields : List (String × Json)) (F G : String) (V : Json)
    (h : G ≠ F) : List.lookup G (setKey fields F V) = List.lookup G fields := by
  induction fields with
  | nil =>
    have hb : (G == F) = false := beq_eq_false_iff_ne.mpr h
    simp [setKey, List.lookup, hb]
  | cons kv rest ih =>
    obtain ⟨k0, v0⟩ := kv
    by_cases hk : k0 = F
    · subst hk
      have hb : (G == k0) = false := beq_eq_false_iff_ne.mpr h
      simp [setKey, List.lookup, hb]
    · by_cases hg : G = k0
      · subst hg; simp [setKey, hk, List.lookup]
      · have hb : (G == k0) = false := beq_eq_false_iff_ne.mpr hg
        simp [setKey, hk, List.lookup, hb, ih]

/-- C8: with a patch document present, the patch applier reads the
current snapshot; an empty patch document (zero operations) returns
exactly the parsed snapshot, and a one-operation patch that sets field F
to value V returns the snapshot with F bound to V while every other
field retains its prior value. -/
theorem ApplyPatchDocument_patch_semantics (request : UpdateRequest)
    (readFunc : ReadRequest → Except String ReadResult) (rr : ReadResult)
    (fields : List (String × Json))
    (hread : readFunc { nativeID := request.nativeID, resourceType := request.resourceType,
                        targetConfig := request.targetConfig } = .ok rr)
    (hobj : rr.properties = .obj fields) :
    (request.patchDocument = some (.arr []) →
      ApplyPatchDocument request readFunc = .ok fields) ∧
    (∀ (F p : String) (V : Json),
      request.patchDocument =
        some (.arr [.obj [("op", .str "add"), ("path", .str p), ("value", V)]]) →
      parsePointer p = .ok [F] →
      ApplyPatchDocument request readFunc = .ok (setKey fields F V) ∧
      List.lookup F (setKey fields F V) = some V ∧
      (∀ G, G ≠ F → List.lookup G (setKey fields F V) = List.lookup G fields)) := by
  constructor
  · intro hp
    simp [ApplyPatchDocument, hp, hread, decodePatch, decodePatchOps, applyPatch, hobj, asObject]
  · intro F p V hp hpath
    refine ⟨?_, lookup_setKey_self fields F V, fun G hG => lookup_setKey_other fields F G V hG⟩
    have h1 : List.lookup "op" [("op", Json.str "add"), ("path", Json.str p), ("value", V)] =
        some (Json.str "add") := rfl
    have h2 : List.lookup "path" [("op", Json.str "add"), ("path", Json.str p), ("value", V)] =
        some (Json.str p) := rfl
    have h3 : List.lookup "value" [("op", Json.str "add"), ("path", Json.str p), ("value", V)] =
        some V := rfl
    have h4 : List.lookup "from" [("op", Json.str "add"), ("path", Json.str p), ("value", V)] =
        none := rfl
    have hdec : decodeOp (.obj [("op", .str "add"), ("path", .str p), ("value", V)]) =
        .ok { op := "add", path := [F], fromPath := none, value := some V } := by
      simp [decodeOp, getStringField, decodeFromField, h1, h2, h3, h4, hpath]
    simp [ApplyPatchDocument, hp, hread, decodePatch, decodePatchOps, hdec, applyPatch, applyOp,
          addAtPath, hobj, asObject]

/-- A sample update request whose patch document renames the resource. -/
def samplePatchRequest : UpdateRequest :=
  { nativeID := "sl-1", resourceType := "OCI::Core::SecurityList",
    patchDocument := some (.arr [.obj [("op", .str "add"), ("path", .str "/DisplayName"),
                                       ("value", .str "renamed")]]) }

/-- A sample snapshot read for the patch applier. -/
def sampleReadFunc : ReadRequest → Except String ReadResult := fun _ =>
  .ok { resourceType := "OCI::Core::SecurityList",
        properties := .obj [("Id", .str "sl-1"), ("DisplayName", .str "old")] }

/-- Witness for C8: the one-operation rename patch merges into the
snapshot. -/
theorem ApplyPatchDocument_patch_semantics_witness :
    ApplyPatchDocument samplePatchRequest sampleReadFunc =
      .ok (setKey [("Id", Json.str "sl-1"), ("DisplayName", Json.str "old")]
        "DisplayName" (Json.str "renamed")) :=
  ((ApplyPatchDocument_patch_semantics samplePatchRequest sampleReadFunc
      { resourceType := "OCI::Core::SecurityList",
        properties := .obj [("Id", .str "sl-1"), ("DisplayName", .str "old")] }
      [("Id", .str "sl-1"), ("DisplayName", .str "old")] rfl rfl).2
    "DisplayName" "/DisplayName" (.str "renamed") rfl (by rfl)).1
